import Mathlib

/-!
Verification of the 4D-ARE prompt-orchestration core.

This file shallowly embeds the code of `src/four_d_are/schemas.py`,
`src/four_d_are/prompts.py` and `src/four_d_are/agent.py` and proves the
spec's testable properties about it.

Modelling conventions:
* Python floats are modelled as exact rationals (`ℚ`); the source's literals
  denote exact decimal values and all format rounding is round-half-to-even,
  matching IEEE/Python formatting on the values the spec exercises.
* Python dicts are association lists in insertion order.
* The remote chat-completion call is an oracle (`transport`) indexed by the
  attempt number; `time.sleep` calls are recorded in a trace instead of
  actually waiting.
* Python string rendering of numbers is reimplemented (`natStr`, `intStr`),
  so that digit-shape facts are provable.
-/

namespace FourDARE

/-- Decimal digit character for a value below ten (`'0'` to `'9'`). -/
def digitChar (n : ℕ) : Char := Char.ofNat (48 + n)

/-- Fuel-driven base-ten digit expansion; `fuel` bounds the recursion depth
(one division by ten per step, so any `fuel > n` is enough). -/
def natDigitsAux : ℕ → ℕ → List Char
  | 0, _ => []
  | fuel + 1, n =>
    if n < 10 then [digitChar n]
    else natDigitsAux fuel (n / 10) ++ [digitChar (n % 10)]

/-- Decimal digits of a natural number, most significant first, as Python
renders an `int`. -/
def natDigits (n : ℕ) : List Char := natDigitsAux (n + 1) n

/-- Decimal string of a natural number. -/
def natStr (n : ℕ) : String := String.mk (natDigits n)

/-- Decimal string of an integer, with a leading minus sign when negative,
as Python renders an `int`. -/
def intStr (n : ℤ) : String := (if n < 0 then "-" else "") ++ natStr n.natAbs

/-- Left-pad a string with zeros up to width `w` (as Python zero-padding of
the fractional part of a fixed-point rendering). -/
def padZeros (w : ℕ) (s : String) : String :=
  String.mk (List.replicate (w - s.length) '0') ++ s

/-- Python's `sep.join(items)`. -/
def joinSep (sep : String) : List String → String
  | [] => ""
  | [x] => x
  | x :: y :: rest => x ++ sep ++ joinSep sep (y :: rest)

/-- Round `q * scale` to the nearest integer, ties to even — the rounding of
Python's fixed-point float formatting. The product is formed on the
numerator so only integer arithmetic occurs: with `f = ⌊q * scale⌋` the
fractional remainder is `(q.num * scale - f * q.den) / q.den`, compared
against one half by cross-multiplication. -/
def roundScaledHalfEven (q : ℚ) (scale : ℕ) : ℤ :=
  let num : ℤ := q.num * scale
  let den : ℤ := (q.den : ℤ)
  let f : ℤ := Int.fdiv num den
  let twiceRem : ℤ := 2 * (num - f * den)
  if twiceRem < den then f
  else if den < twiceRem then f + 1
  else if f % 2 = 0 then f else f + 1

/-- Fixed-point rendering of `q * scale` with exactly `prec` fractional
digits: the common core of Python's `.{prec}f` (`scale = 1`) and
`.{prec}%` (`scale = 100`) format specs. -/
def formatFixedAt (prec scale : ℕ) (q : ℚ) : String :=
  let n := roundScaledHalfEven q (scale * 10 ^ prec)
  let m := n.natAbs
  (if n < 0 then "-" else "") ++ natStr (m / 10 ^ prec) ++
    "." ++ padZeros prec (natStr (m % 10 ^ prec))

/-- Python's format spec `.{prec}f` on a float modelled as a rational. -/
def formatFixed (prec : ℕ) (q : ℚ) : String := formatFixedAt prec 1 q

/-- Python's format spec `.{prec}%` on a float modelled as a rational:
multiply by one hundred, render fixed-point, append a percent sign. -/
def formatPercent (prec : ℕ) (q : ℚ) : String :=
  formatFixedAt prec 100 q ++ "%"

/-- Number of fractional digits Python's `str(float)` prints: the least
`k ≥ 1` making `q * 10 ^ k` integral (floats of the source are exact short
decimals; the shortest round-tripping rendering is then the exact one),
capped at seventeen fractional digits. Integrality of `q * 10 ^ k` is the
integer condition `q.den ∣ q.num * 10 ^ k`. -/
def reprFloatExp (q : ℚ) : ℕ :=
  match (List.range 17).find? (fun k => q.num * 10 ^ (k + 1) % (q.den : ℤ) == 0) with
  | some k => k + 1
  | none => 17

/-- Python's `str` on a float modelled as a rational: shortest plain decimal
form with at least one fractional digit (`str(0.3) = "0.3"`,
`str(1.0) = "1.0"`). The scientific-notation regime of very large or small
floats is outside the values this code base renders and is not modelled. -/
def reprFloat (q : ℚ) : String :=
  let k := reprFloatExp q
  let n := roundScaledHalfEven q (10 ^ k)
  let m := n.natAbs
  (if n < 0 then "-" else "") ++ natStr (m / 10 ^ k) ++
    "." ++ padZeros k (natStr (m % 10 ^ k))

example : formatPercent 1 (mkRat 56 100) = "56.0%" := by decide
example : formatFixed 2 (mkRat 21 10) = "2.10" := by decide
example : formatPercent 1 (mkRat 3 10) = "30.0%" := by decide
example : reprFloat (mkRat 3 10) = "0.3" := by decide
example : reprFloat 1 = "1.0" := by decide
example : reprFloat (mkRat 82 100) = "0.82" := by decide
example : intStr (-12) = "-12" := by decide

/-- A Python scalar metric value as stored in the four metric groups:
float, int, bool, or string. `bool` is a separate constructor because
Python's `isinstance(v, float)` is false for `True`/`False` (bool subclasses
int, not float), so booleans never take the float-formatting branch. -/
inductive Scalar
  | float (q : ℚ)
  | int (n : ℤ)
  | bool (b : Bool)
  | str (s : String)
deriving DecidableEq

/-- Python's `f"{v}"` on a scalar: `str(v)`. -/
def Scalar.pyStr : Scalar → String
  | .float q => reprFloat q
  | .int n => intStr n
  | .bool b => if b then "True" else "False"
  | .str s => s

/-- One metric group: a Python dict from metric name to scalar value,
modelled as an association list in insertion order. -/
abbrev MetricGroup := List (String × Scalar)

/-- Embedding of `schemas.DataContext`: the four-dimensional data context
(`results`, `process`, `support`, `longterm`), each group a dict defaulting
to empty. -/
structure DataContext where
  results : MetricGroup := []
  process : MetricGroup := []
  support : MetricGroup := []
  longterm : MetricGroup := []
deriving DecidableEq

/-- Line rendered for one `results`/`support` entry
(`f"  - {k}: {v:.1%}"` for floats, `f"  - {k}: {v}"` otherwise); the two
groups use the same two-branch loop body in the source. -/
def pctLine : String × Scalar → String
  | (k, Scalar.float q) => "  - " ++ k ++ ": " ++ formatPercent 1 q
  | (k, v) => "  - " ++ k ++ ": " ++ v.pyStr

/-- Line rendered for one `process` entry
(`f"  - {k}: {v:.2f}"` for floats, `f"  - {k}: {v}"` otherwise). -/
def procLine : String × Scalar → String
  | (k, Scalar.float q) => "  - " ++ k ++ ": " ++ formatFixed 2 q
  | (k, v) => "  - " ++ k ++ ": " ++ v.pyStr

/-- Line rendered for one `longterm` entry (`f"  - {k}: {v}"`, no float
special-casing). -/
def plainLine (kv : String × Scalar) : String :=
  "  - " ++ kv.1 ++ ": " ++ kv.2.pyStr

/-- The `lines` list accumulated by `DataContext.to_formatted_string`:
a header plus one line per entry for each non-empty group, in the fixed
order results, process, support, longterm (the headers of all but the first
section carry the source's leading `"\n"`). Empty groups contribute
nothing (`if self.results:` is false on an empty dict). -/
def DataContext.contextLines (c : DataContext) : List String :=
  (if c.results = [] then [] else "【结果指标 Results】" :: c.results.map pctLine)
    ++ (if c.process = [] then [] else "\n【流程指标 Process】" :: c.process.map procLine)
    ++ (if c.support = [] then [] else "\n【支撑指标 Support】" :: c.support.map pctLine)
    ++ (if c.longterm = [] then [] else "\n【环境指标 Long-term】" :: c.longterm.map plainLine)

/-- Embedding of `DataContext.to_formatted_string`:
`"\n".join(lines)`. -/
def DataContext.to_formatted_string (c : DataContext) : String :=
  joinSep "\n" c.contextLines

/-- Python's `data.get(key, {})` on a dict of group dicts. -/
def pyGet (data : List (String × MetricGroup)) (key : String) : MetricGroup :=
  match data.find? (fun p => p.1 == key) with
  | some p => p.2
  | none => []

/-- Embedding of `DataContext.from_dict`: read the four fixed keys,
defaulting each missing one to an empty group. -/
def DataContext.from_dict (data : List (String × MetricGroup)) : DataContext :=
  { results := pyGet data "results"
    process := pyGet data "process"
    support := pyGet data "support"
    longterm := pyGet data "longterm" }

/-- Embedding of `prompts.DomainTemplate` with the source's field
defaults. -/
structure DomainTemplate where
  domain : String := "General Business"
  results : List String := ["completion_rate", "customer_satisfaction"]
  process : List String := ["visit_frequency", "cross_sell_rate", "quality_score"]
  support : List String := ["staffing_ratio", "marketing_coverage", "training_completion"]
  longterm : List String := ["market_trend", "competitor_entries", "regulatory_changes"]
  boundaries : List String :=
    ["Never recommend on personnel matters (hiring, firing, transfers, compensation)",
     "Never make strategic resource allocation decisions"]
  language : String := "Chinese"
deriving DecidableEq

/-- The `boundary_rules` value of `DomainTemplate.render`:
`"\n".join(f"- {b}" for b in self.boundaries)`. -/
def boundaryRulesStr (t : DomainTemplate) : String :=
  joinSep "\n" (t.boundaries.map (fun b => "- " ++ b))

/-- The lines of the rendered system prompt above the interpolated
`{boundary_rules}` line, transcribed line for line from the f-string literal
of `DomainTemplate.render`. -/
def DomainTemplate.headLines (t : DomainTemplate) : List String :=
  ["You are a Performance Attribution Agent operating under the 4D-ARE framework.",
   "Domain: " ++ t.domain,
   "",
   "## CORE PRINCIPLE",
   "Every performance gap has a causal chain. Your job is to TRACE this chain through 4 dimensions:",
   "Results -> Process -> Support -> Long-term (Environment)",
   "",
   "## DIMENSIONAL FRAMEWORK",
   "",
   "### D_R (Results Dimension)",
   "- What: Observable outcome metrics",
   "- Your Authority: DISPLAY ONLY - present the numbers, no interpretation",
   "- Examples: " ++ joinSep ", " t.results,
   "",
   "### D_P (Process Dimension)",
   "- What: Controllable operational factors",
   "- Your Authority: INTERPRET + RECOMMEND",
   "- Must explain WHY these factors impact results",
   "- Must provide SPECIFIC, ACTIONABLE recommendations",
   "- Examples: " ++ joinSep ", " t.process,
   "",
   "### D_S (Support Dimension)",
   "- What: Resource and capability factors",
   "- Your Authority: DISPLAY + OPEN-ENDED SUGGESTIONS",
   "- Can suggest areas for management review, but NOT specific actions",
   "- Examples: " ++ joinSep ", " t.support,
   "",
   "### D_L (Long-term/Environment Dimension)",
   "- What: External and structural factors",
   "- Your Authority: CONTEXT ONLY - no recommendations",
   "- Present as background that constrains what's possible",
   "- Examples: " ++ joinSep ", " t.longterm,
   "",
   "## ATTRIBUTION TRACING PROTOCOL",
   "When Results show gaps:",
   "1. First DISPLAY the result gap (D_R)",
   "2. Then TRACE to Process factors (D_P) - which operational behaviors caused this?",
   "3. Then TRACE to Support factors (D_S) - what resource constraints contributed?",
   "4. Finally CONTEXTUALIZE with Long-term factors (D_L) - what environmental factors set the stage?",
   "",
   "## BOUNDARY CONSTRAINTS (CRITICAL)"]

/-- The fixed lines of the rendered system prompt below the interpolated
`{boundary_rules}` line, transcribed line for line from the f-string literal
of `DomainTemplate.render`. -/
def renderTailLines : List String :=
  ["- Use HEDGED language: \"indicates\", \"suggests\", \"may reflect\", \"warrants review\"",
   "- ALWAYS distinguish observation from inference",
   "- If data is missing, explicitly acknowledge it",
   "",
   "## RESPONSE FORMAT",
   "Structure your response with clear section headers:",
   "【结果现状】(Results - display only)",
   "【流程归因】(Process - interpretation + specific recommendations)",
   "【支撑背景】(Support - context + open suggestions for review)",
   "【环境背景】(Long-term - context only)",
   "【综合建议】(Synthesis - actionable next steps within your authority)"]

/-- Embedding of `DomainTemplate.render`: the triple-quoted f-string is the
newline-join of its source lines (with a trailing newline before the closing
quotes); the `{boundary_rules}` interpolation occupies one whole source line
and is kept as a single element here so the join reproduces the literal for
every boundary list, the empty one included. -/
def DomainTemplate.render (t : DomainTemplate) : String :=
  joinSep "\n" (t.headLines ++ [boundaryRulesStr t] ++ renderTailLines) ++ "\n"

/-- Embedding of `prompts.BANKING_TEMPLATE`. -/
def BANKING_TEMPLATE : DomainTemplate :=
  { domain := "Banking Operations"
    results := ["completion_rate", "AUM_growth", "customer_retention", "new_customer_acquisition"]
    process := ["visit_frequency", "cross_sell_rate", "quality_score", "conversion_rate"]
    support := ["staffing_ratio", "marketing_coverage", "training_completion", "system_availability"]
    longterm := ["market_trend", "competitor_entries", "regulatory_changes", "economic_cycle"]
    boundaries :=
      ["Never recommend on personnel matters (hiring, firing, transfers, compensation)",
       "Never make strategic resource allocation decisions",
       "Use hedged language for all inferences"]
    language := "Chinese" }

/-- Embedding of `prompts.build_agent_prompt`: render the template (the
banking one when none is given), append the data context behind the fixed
`DATA CONTEXT:` delimiter to form the system message, and build the fixed
user message around the query. -/
def build_agent_prompt (query : String) (data_context_str : String)
    (template : Option DomainTemplate) : String × String :=
  let t := template.getD BANKING_TEMPLATE
  (t.render ++ "\n\nDATA CONTEXT:\n" ++ data_context_str,
   "Query: " ++ query ++
     "\n\nProvide attribution-complete analysis following the 4D framework.\nTrace the causal chain from results through process to support to long-term factors.")

example :
    DataContext.to_formatted_string
      { results := [("retention_rate", Scalar.float (mkRat 56 100))]
        process := [("visit_frequency", Scalar.float (mkRat 21 10))]
        support := []
        longterm := [("market_trend", Scalar.str "declining")] } =
      "【结果指标 Results】\n  - retention_rate: 56.0%\n\n【流程指标 Process】\n  - visit_frequency: 2.10\n\n【环境指标 Long-term】\n  - market_trend: declining" := by
  decide

/-- Outcome of `AttributionAgent.analyze`: a returned string or the raised
`RuntimeError`. -/
inductive AnalyzeResult
  | ok (text : String)
  | fatal (msg : String)
deriving DecidableEq

/-- Observable trace of one `analyze` call: how many times the completion
endpoint was invoked, the `time.sleep` durations in order, and the
outcome. -/
structure RunTrace where
  calls : ℕ
  sleeps : List ℚ
  result : AnalyzeResult
deriving DecidableEq

/-- Python's `range(n)` for a possibly non-positive `int` bound: the
attempts `0, 1, ..., n-1`, empty when `n ≤ 0`. -/
def pyRange (n : ℤ) : List ℤ := (List.range n.toNat).map Int.ofNat

/-- The remote completion call as an oracle: given the attempt index and the
(system, user) messages, the endpoint either raises (`.error` carries the
exception text) or returns the first choice's message content (`none`
models a `None` content field). -/
abbrev Transport := ℤ → String × String → Except String (Option String)

/-- Python's `content or ""` on an optional response content: `None` and
the empty string are falsy. -/
def pyOrEmpty (content : Option String) : String :=
  match content with
  | none => ""
  | some s => if s = "" then "" else s

/-- The `for attempt in range(max_retries)` loop of
`AttributionAgent.analyze`, with the performed sleeps accumulated in
reverse. On success the content (or `""`) is returned at once; on an
exception the loop sleeps `retry_delay * (attempt + 1)` seconds and retries
while `attempt < max_retries - 1`, and otherwise raises
`RuntimeError(f"API call failed after {max_retries} attempts: {e}")`.
Falling out of the loop returns `""`. -/
def analyzeLoop (transport : Transport) (msgs : String × String)
    (maxRetries : ℤ) (retryDelay : ℚ) :
    List ℤ → ℕ → List ℚ → RunTrace
  | [], calls, sleeps => ⟨calls, sleeps.reverse, .ok ""⟩
  | attempt :: rest, calls, sleeps =>
    match transport attempt msgs with
    | .ok content => ⟨calls + 1, sleeps.reverse, .ok (pyOrEmpty content)⟩
    | .error e =>
      if attempt < maxRetries - 1 then
        analyzeLoop transport msgs maxRetries retryDelay rest (calls + 1)
          (retryDelay * ((attempt : ℚ) + 1) :: sleeps)
      else
        ⟨calls + 1, sleeps.reverse,
          .fatal ("API call failed after " ++ intStr maxRetries ++ " attempts: " ++ e)⟩

/-- Embedding of `AttributionAgent.analyze`: convert a plain dict argument
to a `DataContext` if needed, build the prompts once, then run the retry
loop against the transport oracle. -/
def analyze (transport : Transport) (query : String)
    (data_context : DataContext ⊕ List (String × MetricGroup))
    (maxRetries : ℤ) (retryDelay : ℚ) (template : DomainTemplate) : RunTrace :=
  let dc := match data_context with
    | .inl c => c
    | .inr d => DataContext.from_dict d
  let data_str := dc.to_formatted_string
  let msgs := build_agent_prompt query data_str (some template)
  analyzeLoop transport msgs maxRetries retryDelay (pyRange maxRetries) 0 []

/-- Whether `needle` is a leading segment of `hay` (character lists). -/
def leadsList : List Char → List Char → Bool
  | [], _ => true
  | _ :: _, [] => false
  | a :: as, b :: bs => a == b && leadsList as bs

/-- Whether `needle` occurs contiguously inside `hay` (character lists). -/
def containsSubList (needle : List Char) : List Char → Bool
  | [] => needle.isEmpty
  | c :: rest => leadsList needle (c :: rest) || containsSubList needle rest

/-- Whether `needle` occurs as a contiguous substring of `hay`. -/
def containsSub (needle hay : String) : Bool :=
  containsSubList needle.data hay.data

example : containsSub "lo w" "hello world" = true := by decide
example : containsSub "low" "hello world" = false := by decide

/-- A JSON value, the result type of the modelled `json.loads`. Numbers are
kept as exact rationals. -/
inductive JsonVal
  | obj (fields : List (String × JsonVal))
  | arr (items : List JsonVal)
  | str (s : String)
  | num (q : ℚ)
  | bool (b : Bool)
  | null

/-- Characters the JSON decoder skips between tokens. -/
def jsonWs (c : Char) : Bool := [' ', '\t', '\n', '\r'].contains c

/-- Whether a character is one of the ten decimal digits. -/
def isDigitChar (c : Char) : Bool := 48 ≤ c.toNat && c.toNat ≤ 57

/-- Numeric value of a digit character. -/
def digitVal (c : Char) : ℕ := c.toNat - 48

/-- Consume the body of a JSON string literal up to its closing quote.
Escape sequences are not modelled (the claims never exercise them). -/
def jsonStrChars : List Char → Option (List Char × List Char)
  | [] => none
  | '"' :: rest => some ([], rest)
  | c :: rest => (jsonStrChars rest).map (fun p => (c :: p.1, p.2))

/-- Consume a maximal run of digits, returning its value, its length and
the remaining input. -/
def jsonDigitsAux : List Char → ℕ → ℕ → ℕ × ℕ × List Char
  | [], acc, cnt => (acc, cnt, [])
  | c :: rest, acc, cnt =>
    if isDigitChar c then jsonDigitsAux rest (acc * 10 + digitVal c) (cnt + 1)
    else (acc, cnt, c :: rest)

/-- Parse a JSON number (optional minus sign, digits, optional fraction;
exponents are not modelled — the claims never exercise them). -/
def jsonNum (l : List Char) : Option (JsonVal × List Char) :=
  let (neg, l1) := match l with
    | '-' :: r => (true, r)
    | _ => (false, l)
  match l1 with
  | [] => none
  | c :: _ =>
    if isDigitChar c then
      let (ip, _, r1) := jsonDigitsAux l1 0 0
      match r1 with
      | '.' :: r2 =>
        match r2 with
        | [] => none
        | d :: _ =>
          if isDigitChar d then
            let (fp, cnt, r3) := jsonDigitsAux r2 0 0
            let q : ℚ := (ip : ℚ) + (fp : ℚ) / ((10 : ℚ) ^ cnt)
            some (.num (if neg then -q else q), r3)
          else none
      | _ => some (.num (if neg then -(ip : ℚ) else (ip : ℚ)), r1)
    else none

mutual

/-- Recursive-descent JSON value parser, fuel-bounded (each recursion
consumes at least one input character, so any fuel beyond the input length
is enough). Models the acceptance behaviour of Python's `json.loads` on the
object/array/string/number/bool/null fragment without string escapes or
exponents. -/
def jsonVal : ℕ → List Char → Option (JsonVal × List Char)
  | 0, _ => none
  | fuel + 1, input =>
    match input.dropWhile jsonWs with
    | 'n' :: 'u' :: 'l' :: 'l' :: rest => some (.null, rest)
    | 't' :: 'r' :: 'u' :: 'e' :: rest => some (.bool true, rest)
    | 'f' :: 'a' :: 'l' :: 's' :: 'e' :: rest => some (.bool false, rest)
    | '"' :: rest => (jsonStrChars rest).map (fun p => (.str (String.mk p.1), p.2))
    | '\x7b' :: rest =>
      match rest.dropWhile jsonWs with
      | '\x7d' :: r2 => some (.obj [], r2)
      | _ => (jsonObjItems fuel rest).map (fun p => (.obj p.1, p.2))
    | '[' :: rest =>
      match rest.dropWhile jsonWs with
      | ']' :: r2 => some (.arr [], r2)
      | _ => (jsonArrItems fuel rest).map (fun p => (.arr p.1, p.2))
    | rest => jsonNum rest

/-- Parse the comma-separated items of a non-empty JSON array, up to and
including the closing bracket. -/
def jsonArrItems : ℕ → List Char → Option (List JsonVal × List Char)
  | 0, _ => none
  | fuel + 1, input =>
    match jsonVal fuel input with
    | none => none
    | some (v, rest) =>
      match rest.dropWhile jsonWs with
      | ',' :: r2 => (jsonArrItems fuel r2).map (fun p => (v :: p.1, p.2))
      | ']' :: r2 => some ([v], r2)
      | _ => none

/-- Parse the comma-separated `"key": value` members of a non-empty JSON
object, up to and including the closing brace. -/
def jsonObjItems : ℕ → List Char → Option (List (String × JsonVal) × List Char)
  | 0, _ => none
  | fuel + 1, input =>
    match input.dropWhile jsonWs with
    | '"' :: rest =>
      match jsonStrChars rest with
      | none => none
      | some (key, r1) =>
        match r1.dropWhile jsonWs with
        | ':' :: r2 =>
          match jsonVal fuel r2 with
          | none => none
          | some (v, r3) =>
            match r3.dropWhile jsonWs with
            | ',' :: r4 => (jsonObjItems fuel r4).map (fun p => ((String.mk key, v) :: p.1, p.2))
            | '\x7d' :: r4 => some ([(String.mk key, v)], r4)
            | _ => none
        | _ => none
    | _ => none

end

/-- Modelled from the spec: the standard-library JSON decoder called at the
judge-response parse site (`json.loads`) is not part of this repository.
The model parses a full JSON document and rejects trailing garbage; on the
claims' inputs it matches CPython (`json.loads("")` raises
`JSONDecodeError`; `json.loads("\x7b\x7d")` is the empty object). -/
def jsonLoads (s : String) : Option JsonVal :=
  match jsonVal (s.length + 1) s.data with
  | some (v, rest) => if (rest.dropWhile jsonWs).isEmpty then some v else none
  | none => none

/-- Python's `x or y` for an optional string `x` and default `y`: `None`
and the empty string are falsy. -/
def pyOr (content : Option String) (dflt : String) : String :=
  match content with
  | none => dflt
  | some s => if s = "" then dflt else s

/-- The zeroed fallback dict `ExperimentRunner.evaluate_response` returns
when the judge text fails to parse. -/
def defaultEvalResult : JsonVal :=
  .obj [("causal_chain_completeness", .num 0),
        ("dimensional_separation", .num 0),
        ("actionability", .num 0),
        ("boundary_respect", .num 0),
        ("reasoning", .str "Failed to parse evaluation response")]

/-- The result-handling tail of `ExperimentRunner.evaluate_response`:
`json.loads(result.choices[0].message.content or "\x7b\x7d")`, with the
`JSONDecodeError` handler substituting the zeroed default. The judge call
itself is abstracted into the `content` it returned. -/
def evaluate_response (content : Option String) : JsonVal :=
  match jsonLoads (pyOr content "\x7b\x7d") with
  | some v => v
  | none => defaultEvalResult

example : jsonLoads "" = none := rfl
example : jsonLoads "\x7b\x7d" = some (.obj []) := rfl
example : evaluate_response (some "") = .obj [] := rfl
example : evaluate_response (some "nonsense") = defaultEvalResult := rfl
example : jsonLoads "\x7b\"a\": 3\x7d" = some (.obj [("a", .num 3)]) := rfl

/-! Line structure of rendered text: splitting a string at newline
characters, the inverse of the `"\n".join` used throughout the source. -/

/-- Split a character list at newline characters; always non-empty, one
segment more than there are newlines. -/
def splitOnNl : List Char → List (List Char)
  | [] => [[]]
  | c :: rest =>
    let r := splitOnNl rest
    if c = '\n' then [] :: r else (c :: r.headD []) :: r.tail

/-- The lines of a string: the segments between its newline characters. -/
def strLines (s : String) : List String := (splitOnNl s.data).map String.mk

/-- A string free of newline characters, i.e. a single line. -/
def noNL (s : String) : Prop := '\n' ∉ s.data

instance (s : String) : Decidable (noNL s) :=
  inferInstanceAs (Decidable ('\n' ∉ s.data))

theorem splitOnNl_ne_nil (l : List Char) : splitOnNl l ≠ [] := by
  cases l with
  | nil => simp [splitOnNl]
  | cons c rest =>
    simp only [splitOnNl]
    split <;> simp

theorem splitOnNl_append (u v : List Char) :
    splitOnNl (u ++ '\n' :: v) = splitOnNl u ++ splitOnNl v := by
  induction u with
  | nil => simp [splitOnNl]
  | cons c rest ih =>
    rcases h : splitOnNl rest with _ | ⟨h', t⟩
    · exact absurd h (splitOnNl_ne_nil rest)
    · simp only [List.cons_append, splitOnNl, ih, h]
      split <;> simp [ih, h]

theorem splitOnNl_of_not_mem (l : List Char) (h : '\n' ∉ l) :
    splitOnNl l = [l] := by
  induction l with
  | nil => rfl
  | cons c rest ih =>
    simp only [List.mem_cons, not_or] at h
    have hc : ¬ c = '\n' := fun hc => h.1 hc.symm
    simp [splitOnNl, ih h.2, hc]

theorem string_mk_data (s : String) : String.mk s.data = s := rfl

theorem strLines_of_noNL (s : String) (h : noNL s) : strLines s = [s] := by
  unfold strLines
  rw [splitOnNl_of_not_mem s.data h]
  simp [string_mk_data]

theorem strLines_append_nl (a b : String) :
    strLines (a ++ "\n" ++ b) = strLines a ++ strLines b := by
  unfold strLines
  have hd : (a ++ "\n" ++ b).data = a.data ++ '\n' :: b.data := by
    simp [String.data_append]
  rw [hd, splitOnNl_append, List.map_append]

theorem strLines_trailing_nl (a : String) :
    strLines (a ++ "\n") = strLines a ++ [""] := by
  have h := strLines_append_nl a ""
  simpa using h

theorem strLines_joinSep (L : List String) (h : L ≠ []) :
    strLines (joinSep "\n" L) = (L.map strLines).flatten := by
  induction L with
  | nil => exact absurd rfl h
  | cons x rest ih =>
    cases rest with
    | nil => simp [joinSep]
    | cons y t =>
      have hne : y :: t ≠ [] := by simp
      simp only [joinSep, List.map_cons, List.flatten_cons]
      rw [strLines_append_nl, ih hne]
      simp [joinSep]

theorem flatten_singletons (L : List String) (h : ∀ s ∈ L, noNL s) :
    (L.map strLines).flatten = L := by
  induction L with
  | nil => rfl
  | cons x rest ih =>
    simp only [List.map_cons, List.flatten_cons]
    rw [strLines_of_noNL x (h x (by simp)), ih (fun s hs => h s (by simp [hs]))]
    rfl

theorem noNL_append (a b : String) (ha : noNL a) (hb : noNL b) :
    noNL (a ++ b) := by
  unfold noNL at *
  rw [String.data_append]
  simp [List.mem_append]
  exact ⟨ha, hb⟩

theorem noNL_joinSep (sep : String) (L : List String) (hsep : noNL sep)
    (h : ∀ s ∈ L, noNL s) : noNL (joinSep sep L) := by
  induction L with
  | nil => simp [joinSep, noNL]
  | cons x rest ih =>
    cases rest with
    | nil => exact h x (by simp)
    | cons y t =>
      simp only [joinSep]
      exact noNL_append _ _ (noNL_append _ _ (h x (by simp)) hsep)
        (ih (fun s hs => h s (by simp [hs])))

/-! Digit-shape facts about the number renderer. -/

theorem natDigitsAux_all_digits :
    ∀ fuel n c, c ∈ natDigitsAux fuel n → ∃ d, d < 10 ∧ c = digitChar d := by
  intro fuel
  induction fuel with
  | zero => intro n c hc; simp [natDigitsAux] at hc
  | succ f ih =>
    intro n c hc
    by_cases h : n < 10
    · simp only [natDigitsAux, if_pos h, List.mem_singleton] at hc
      exact ⟨n, h, hc⟩
    · simp only [natDigitsAux, if_neg h, List.mem_append, List.mem_singleton] at hc
      rcases hc with hc | hc
      · exact ih _ _ hc
      · exact ⟨n % 10, Nat.mod_lt _ (by omega), hc⟩

theorem dot_not_mem_natStr (n : ℕ) : '.' ∉ (natStr n).data := by
  intro hmem
  obtain ⟨d, hd, hc⟩ := natDigitsAux_all_digits (n + 1) n _ hmem
  revert hc
  interval_cases d <;> decide

theorem natStr_of_lt_ten (n : ℕ) (h : n < 10) : natStr n = String.mk [digitChar n] := by
  simp [natStr, natDigits, natDigitsAux, h]

theorem natStr_length_of_lt_ten (n : ℕ) (h : n < 10) : (natStr n).length = 1 := by
  rw [natStr_of_lt_ten n h]
  rfl

theorem natStr_length_of_lt_hundred (n : ℕ) (h10 : 10 ≤ n) (h : n < 100) :
    (natStr n).length = 2 := by
  obtain ⟨k, rfl⟩ : ∃ k, n = k + 1 := ⟨n - 1, by omega⟩
  have h1 : ¬ (k + 1 < 10) := by omega
  have h2 : (k + 1) / 10 < 10 := by omega
  simp [natStr, natDigits, natDigitsAux, h1, h2, String.length]

theorem padZeros_length (w : ℕ) (s : String) :
    (padZeros w s).length = (w - s.length) + s.length := by
  simp [padZeros, String.length_append, String.length_mk]

theorem padZeros_eq_self (w : ℕ) (s : String) (h : w ≤ s.length) :
    padZeros w s = s := by
  unfold padZeros
  rw [Nat.sub_eq_zero_of_le h]
  obtain ⟨l⟩ := s
  rfl

theorem dot_not_mem_padZeros_natStr (w n : ℕ) :
    '.' ∉ (padZeros w (natStr n)).data := by
  unfold padZeros
  rw [String.data_append]
  intro hmem
  rcases List.mem_append.mp hmem with hmem | hmem
  · have : '.' ∈ List.replicate (w - (natStr n).length) '0' := hmem
    have := List.eq_of_mem_replicate this
    exact absurd this (by decide)
  · exact dot_not_mem_natStr n hmem

/-- Shape of a one-fractional-digit percentage rendering, as in `56.0%`:
an optional sign, integer digits, a dot, exactly one fractional digit, and
a percent sign. -/
def OneDecPct (s : String) : Prop :=
  ∃ (sgn : String) (a d : ℕ), (sgn = "" ∨ sgn = "-") ∧ d < 10 ∧
    s = sgn ++ natStr a ++ "." ++ natStr d ++ "%" ∧
    (natStr d).length = 1 ∧ '.' ∉ (natStr a).data ∧ '.' ∉ (natStr d).data

/-- Shape of a two-fractional-digit plain decimal rendering, as in `2.10`:
an optional sign, integer digits, a dot and exactly two fractional
digits. -/
def TwoDecPlain (s : String) : Prop :=
  ∃ (sgn : String) (a d : ℕ), (sgn = "" ∨ sgn = "-") ∧ d < 100 ∧
    s = sgn ++ natStr a ++ "." ++ padZeros 2 (natStr d) ∧
    (padZeros 2 (natStr d)).length = 2 ∧ '.' ∉ (natStr a).data ∧
    '.' ∉ (padZeros 2 (natStr d)).data

theorem formatPercent_oneDec (q : ℚ) : OneDecPct (formatPercent 1 q) := by
  unfold formatPercent formatFixedAt
  dsimp only
  set n := roundScaledHalfEven q (100 * 10 ^ 1) with hn
  have hd : n.natAbs % 10 ^ 1 < 10 := Nat.mod_lt _ (by norm_num)
  have hlen : (natStr (n.natAbs % 10 ^ 1)).length = 1 :=
    natStr_length_of_lt_ten _ hd
  refine ⟨if n < 0 then "-" else "", n.natAbs / 10 ^ 1, n.natAbs % 10 ^ 1,
    ?_, hd, ?_, hlen, dot_not_mem_natStr _, dot_not_mem_natStr _⟩
  · split <;> simp
  · rw [padZeros_eq_self 1 _ (by rw [hlen])]

theorem formatFixed_twoDec (q : ℚ) : TwoDecPlain (formatFixed 2 q) := by
  unfold formatFixed formatFixedAt
  dsimp only
  set n := roundScaledHalfEven q (1 * 10 ^ 2) with hn
  have hd : n.natAbs % 10 ^ 2 < 100 := Nat.mod_lt _ (by norm_num)
  have hlen : (padZeros 2 (natStr (n.natAbs % 10 ^ 2))).length = 2 := by
    rw [padZeros_length]
    by_cases h : n.natAbs % 10 ^ 2 < 10
    · rw [natStr_length_of_lt_ten _ h]
    · rw [natStr_length_of_lt_hundred _ (by omega) hd]
  exact ⟨if n < 0 then "-" else "", n.natAbs / 10 ^ 2, n.natAbs % 10 ^ 2,
    by split <;> simp, hd, rfl, hlen, dot_not_mem_natStr _,
    dot_not_mem_padZeros_natStr _ _⟩

/-! Section headers of the formatted data context. -/

/-- Recognize the four section-header lines emitted by
`DataContext.to_formatted_string` (the sections after the first carry the
source's leading newline), returning the section's position in the fixed
order. -/
def headerOf (s : String) : Option (Fin 4) :=
  if s = "【结果指标 Results】" then some 0
  else if s = "\n【流程指标 Process】" then some 1
  else if s = "\n【支撑指标 Support】" then some 2
  else if s = "\n【环境指标 Long-term】" then some 3
  else none

theorem head_space (k x y : String) :
    ("  - " ++ k ++ x ++ y).data.head? = some ' ' := by
  obtain ⟨kl⟩ := k
  obtain ⟨xl⟩ := x
  obtain ⟨yl⟩ := y
  rfl

theorem entry_ne_header (k x y h : String) (hh : h.data.head? ≠ some ' ') :
    ("  - " ++ k ++ x ++ y) ≠ h := by
  intro he
  apply hh
  rw [← he]
  exact head_space k x y

theorem headerOf_entry (k x y : String) : headerOf ("  - " ++ k ++ x ++ y) = none := by
  unfold headerOf
  rw [if_neg (entry_ne_header k x y _ (by decide)),
    if_neg (entry_ne_header k x y _ (by decide)),
    if_neg (entry_ne_header k x y _ (by decide)),
    if_neg (entry_ne_header k x y _ (by decide))]

theorem headerOf_pctLine (kv : String × Scalar) : headerOf (pctLine kv) = none := by
  obtain ⟨k, v⟩ := kv
  cases v <;> exact headerOf_entry k ": " _

theorem headerOf_procLine (kv : String × Scalar) : headerOf (procLine kv) = none := by
  obtain ⟨k, v⟩ := kv
  cases v <;> exact headerOf_entry k ": " _

theorem headerOf_plainLine (kv : String × Scalar) : headerOf (plainLine kv) = none := by
  obtain ⟨k, v⟩ := kv
  exact headerOf_entry k ": " _

theorem filterMap_headerOf_entries (f : String × Scalar → String)
    (hf : ∀ kv, headerOf (f kv) = none) (l : List (String × Scalar)) :
    (l.map f).filterMap headerOf = [] := by
  induction l with
  | nil => rfl
  | cons kv rest ih => simp [hf, ih]

theorem filterMap_headerOf_section (hdr : String) (i : Fin 4)
    (f : String × Scalar → String) (hf : ∀ kv, headerOf (f kv) = none)
    (l : MetricGroup) (hh : headerOf hdr = some i) :
    ((if l = [] then [] else hdr :: l.map f) : List String).filterMap headerOf =
      (if l = [] then [] else [i]) := by
  by_cases h : l = []
  · simp [h]
  · simp [h, List.filterMap_cons, hh, filterMap_headerOf_entries f hf]

/-- C4: for every data context the formatted text has exactly one section
header per non-empty group, the headers occur in the fixed order results,
process, support, longterm, and empty groups produce no header. The
formatted text is the newline-join of `contextLines`, so the statement is
about the emitted lines: scanning them for the four header lines recovers
exactly the non-empty groups, in order. -/
theorem contextLines_sections (c : DataContext) :
    c.contextLines.filterMap headerOf =
      (if c.results = [] then [] else [(0 : Fin 4)]) ++
        (if c.process = [] then [] else [(1 : Fin 4)]) ++
        (if c.support = [] then [] else [(2 : Fin 4)]) ++
        (if c.longterm = [] then [] else [(3 : Fin 4)]) := by
  unfold DataContext.contextLines
  rw [List.filterMap_append, List.filterMap_append, List.filterMap_append,
    filterMap_headerOf_section _ 0 pctLine headerOf_pctLine _ (by decide),
    filterMap_headerOf_section _ 1 procLine headerOf_procLine _ (by decide),
    filterMap_headerOf_section _ 2 pctLine headerOf_pctLine _ (by decide),
    filterMap_headerOf_section _ 3 plainLine headerOf_plainLine _ (by decide)]

/-- The end-to-end scenario context of the spec:
`{results: {retention_rate: 0.56}, process: {visit_frequency: 2.1},
support: {}, longterm: {market_trend: "declining"}}`. -/
def scenarioContext : DataContext :=
  { results := [("retention_rate", Scalar.float (mkRat 56 100))]
    process := [("visit_frequency", Scalar.float (mkRat 21 10))]
    support := []
    longterm := [("market_trend", Scalar.str "declining")] }

set_option maxRecDepth 100000 in
/-- C3: every float in `results` or `support` is rendered as a percentage
with exactly one fractional digit, every float in `process` as a plain
decimal with exactly two fractional digits (`0.56 ↦ 56.0%`,
`2.1 ↦ 2.10`); and on the spec's end-to-end scenario the system message
contains `56.0%`, `2.10` and `declining` but no support section header. -/
theorem float_formatting (c : DataContext) (k : String) (q : ℚ) :
    ((k, Scalar.float q) ∈ c.results →
      ("  - " ++ k ++ ": " ++ formatPercent 1 q) ∈ c.contextLines ∧
        OneDecPct (formatPercent 1 q)) ∧
    ((k, Scalar.float q) ∈ c.support →
      ("  - " ++ k ++ ": " ++ formatPercent 1 q) ∈ c.contextLines ∧
        OneDecPct (formatPercent 1 q)) ∧
    ((k, Scalar.float q) ∈ c.process →
      ("  - " ++ k ++ ": " ++ formatFixed 2 q) ∈ c.contextLines ∧
        TwoDecPlain (formatFixed 2 q)) ∧
    formatPercent 1 (mkRat 56 100) = "56.0%" ∧
    formatFixed 2 (mkRat 21 10) = "2.10" ∧
    (∀ query : String,
      containsSub "56.0%"
        (build_agent_prompt query scenarioContext.to_formatted_string
          (some BANKING_TEMPLATE)).1 = true ∧
      containsSub "2.10"
        (build_agent_prompt query scenarioContext.to_formatted_string
          (some BANKING_TEMPLATE)).1 = true ∧
      containsSub "declining"
        (build_agent_prompt query scenarioContext.to_formatted_string
          (some BANKING_TEMPLATE)).1 = true ∧
      containsSub "【支撑指标 Support】"
        (build_agent_prompt query scenarioContext.to_formatted_string
          (some BANKING_TEMPLATE)).1 = false) := by
  refine ⟨?_, ?_, ?_, by decide, by decide, ?_⟩
  · intro hm
    have hne : c.results ≠ [] := fun h => by simp [h] at hm
    refine ⟨?_, formatPercent_oneDec q⟩
    unfold DataContext.contextLines
    rw [if_neg hne]
    exact List.mem_append_left _ (List.mem_append_left _ (List.mem_append_left _
      (List.mem_cons_of_mem _ (List.mem_map_of_mem pctLine hm))))
  · intro hm
    have hne : c.support ≠ [] := fun h => by simp [h] at hm
    refine ⟨?_, formatPercent_oneDec q⟩
    unfold DataContext.contextLines
    rw [if_neg hne]
    exact List.mem_append_left _ (List.mem_append_right _
      (List.mem_cons_of_mem _ (List.mem_map_of_mem pctLine hm)))
  · intro hm
    have hne : c.process ≠ [] := fun h => by simp [h] at hm
    refine ⟨?_, formatFixed_twoDec q⟩
    unfold DataContext.contextLines
    rw [if_neg hne]
    exact List.mem_append_left _ (List.mem_append_left _ (List.mem_append_right _
      (List.mem_cons_of_mem _ (List.mem_map_of_mem procLine hm))))
  · intro query
    have hsys : (build_agent_prompt query scenarioContext.to_formatted_string
        (some BANKING_TEMPLATE)).1 =
        BANKING_TEMPLATE.render ++ "\n\nDATA CONTEXT:\n" ++
          scenarioContext.to_formatted_string := rfl
    rw [hsys]
    exact ⟨by decide, by decide, by decide, by decide⟩

/-- C10: floats in `longterm` get no special formatting (they render via
`str`, so `0.3` stays `0.3`, unlike the `30.0%` and `0.30` the other
branches would produce), and booleans in every group render as
`True`/`False` because only exact floats take the percentage/decimal
branch. -/
theorem longterm_and_bool_rendering :
    (∀ (k : String) (q : ℚ),
      plainLine (k, Scalar.float q) = "  - " ++ k ++ ": " ++ reprFloat q) ∧
    reprFloat (mkRat 3 10) = "0.3" ∧
    formatPercent 1 (mkRat 3 10) = "30.0%" ∧
    formatFixed 2 (mkRat 3 10) = "0.30" ∧
    reprFloat (mkRat 3 10) ≠ formatPercent 1 (mkRat 3 10) ∧
    reprFloat (mkRat 3 10) ≠ formatFixed 2 (mkRat 3 10) ∧
    (∀ (k : String) (b : Bool),
      pctLine (k, Scalar.bool b) = "  - " ++ k ++ ": " ++ (if b then "True" else "False")) ∧
    (∀ (k : String) (b : Bool),
      procLine (k, Scalar.bool b) = "  - " ++ k ++ ": " ++ (if b then "True" else "False")) ∧
    (∀ (k : String) (b : Bool),
      plainLine (k, Scalar.bool b) = "  - " ++ k ++ ": " ++ (if b then "True" else "False")) :=
  ⟨fun _ _ => rfl, by decide, by decide, by decide, by decide, by decide,
    fun _ _ => rfl, fun _ _ => rfl, fun _ _ => rfl⟩

/-- C6: prompt rendering is deterministic and idempotent — the embedding of
the renderers is pure (the source reads no state and draws no randomness
while rendering), so building the prompt pair twice from the same template,
context and query yields identical output. -/
theorem prompt_deterministic (t : DomainTemplate) (c : DataContext) (query : String) :
    build_agent_prompt query c.to_formatted_string (some t) =
      build_agent_prompt query c.to_formatted_string (some t) ∧
    t.render = t.render ∧
    c.to_formatted_string = c.to_formatted_string :=
  ⟨rfl, rfl, rfl⟩

theorem pyGet_eq_lookup (d : List (String × MetricGroup)) (k : String) :
    pyGet d k = (d.lookup k).getD [] := by
  induction d with
  | nil => rfl
  | cons p rest ih =>
    obtain ⟨a, g⟩ := p
    by_cases h : a = k
    · subst h
      simp [pyGet, List.find?, List.lookup]
    · have h1 : (a == k) = false := beq_eq_false_iff_ne.mpr h
      have h2 : (k == a) = false := beq_eq_false_iff_ne.mpr (Ne.symm h)
      simp only [pyGet, List.find?, List.lookup, h1, h2] at *
      exact ih

/-- C7: constructing a `DataContext` from a dict reads exactly the four
fixed keys, missing keys defaulting to empty groups, and `analyze` applies
this same conversion when handed a plain dict instead of a context. -/
theorem from_dict_semantics (d : List (String × MetricGroup)) :
    DataContext.from_dict d =
      { results := (d.lookup "results").getD []
        process := (d.lookup "process").getD []
        support := (d.lookup "support").getD []
        longterm := (d.lookup "longterm").getD [] } ∧
    (∀ (transport : Transport) (query : String) (maxRetries : ℤ)
      (retryDelay : ℚ) (template : DomainTemplate),
      analyze transport query (Sum.inr d) maxRetries retryDelay template =
        analyze transport query (Sum.inl (DataContext.from_dict d))
          maxRetries retryDelay template) := by
  constructor
  · unfold DataContext.from_dict
    rw [pyGet_eq_lookup, pyGet_eq_lookup, pyGet_eq_lookup, pyGet_eq_lookup]
  · intro _ _ _ _ _
    rfl

theorem strLines_boundaryRules (t : DomainTemplate)
    (hb : ∀ b ∈ t.boundaries, noNL b) :
    strLines (boundaryRulesStr t) =
      if t.boundaries = [] then [""] else t.boundaries.map (fun b => "- " ++ b) := by
  by_cases hbe : t.boundaries = []
  · rw [if_pos hbe]
    unfold boundaryRulesStr
    rw [hbe]
    rfl
  · rw [if_neg hbe]
    unfold boundaryRulesStr
    rw [strLines_joinSep _ (by simpa using hbe)]
    refine flatten_singletons _ ?_
    intro s hsm
    obtain ⟨b, hbm, rfl⟩ := List.mem_map.mp hsm
    exact noNL_append _ _ (by decide) (hb b hbm)

/-- C5: for a template whose fields are single lines of text, the lines of
the rendered system message decompose as a fixed head (dependent only on
the domain label and example lists), then one bulleted line `- rule` per
boundary rule in the order given — exactly `N` of them and at a position
independent of the rules — then the fixed tail. -/
theorem render_boundary_lines (t : DomainTemplate)
    (hdom : noNL t.domain)
    (hres : ∀ s ∈ t.results, noNL s) (hpro : ∀ s ∈ t.process, noNL s)
    (hsup : ∀ s ∈ t.support, noNL s) (hlon : ∀ s ∈ t.longterm, noNL s)
    (hb : ∀ b ∈ t.boundaries, noNL b) :
    strLines t.render =
      t.headLines ++
        (if t.boundaries = [] then [""]
          else t.boundaries.map (fun b => "- " ++ b)) ++
        (renderTailLines ++ [""]) := by
  have hhead : ∀ s ∈ t.headLines, noNL s := by
    intro s hmem
    unfold DomainTemplate.headLines at hmem
    fin_cases hmem <;>
      first
        | decide
        | exact noNL_append _ _ (by decide) hdom
        | exact noNL_append _ _ (by decide) (noNL_joinSep ", " _ (by decide) hres)
        | exact noNL_append _ _ (by decide) (noNL_joinSep ", " _ (by decide) hpro)
        | exact noNL_append _ _ (by decide) (noNL_joinSep ", " _ (by decide) hsup)
        | exact noNL_append _ _ (by decide) (noNL_joinSep ", " _ (by decide) hlon)
  unfold DomainTemplate.render
  rw [strLines_trailing_nl,
    strLines_joinSep _ (by simp [DomainTemplate.headLines]),
    List.map_append, List.map_append, List.flatten_append, List.flatten_append,
    flatten_singletons _ hhead, flatten_singletons renderTailLines (by decide)]
  simp only [List.map_cons, List.map_nil, List.flatten_cons, List.flatten_nil,
    List.append_nil]
  rw [strLines_boundaryRules t hb]
  simp [List.append_assoc]

/-- C1: with `max_retries = 3` and a transport failing on the first two
attempts then succeeding, `analyze` returns the successful response's text,
invokes the transport exactly three times, and sleeps `retry_delay * 1`
before the second attempt and `retry_delay * 2` before the third (linear
backoff); the success is returned at once whatever its content (`c` is an
arbitrary content, `None` included). -/
theorem retry_succeeds_third (query : String)
    (ctx : DataContext ⊕ List (String × MetricGroup)) (d : ℚ) (hd : 0 < d)
    (t : DomainTemplate) (transport : Transport) (e0 e1 : String)
    (c : Option String)
    (h0 : ∀ m, transport 0 m = .error e0)
    (h1 : ∀ m, transport 1 m = .error e1)
    (h2 : ∀ m, transport 2 m = .ok c) :
    analyze transport query ctx 3 d t = ⟨3, [d * 1, d * 2], .ok (pyOrEmpty c)⟩ := by
  unfold analyze
  have hr : pyRange 3 = [0, 1, 2] := rfl
  dsimp only
  rw [hr]
  norm_num [analyzeLoop, h0, h1, h2]

/-- C2: with `max_retries = 3` and a transport failing on every attempt,
`analyze` raises the fatal `RuntimeError` after exactly three transport
invocations, and the error message carries the description of the last
underlying failure; no partial result is returned. -/
theorem retry_exhaustion (query : String)
    (ctx : DataContext ⊕ List (String × MetricGroup)) (d : ℚ) (hd : 0 < d)
    (t : DomainTemplate) (transport : Transport) (e : ℤ → String)
    (hf : ∀ n m, transport n m = .error (e n)) :
    analyze transport query ctx 3 d t =
      ⟨3, [d * 1, d * 2],
        .fatal ("API call failed after 3 attempts: " ++ e 2)⟩ := by
  unfold analyze
  have hr : pyRange 3 = [0, 1, 2] := rfl
  have hstr : ("API call failed after " ++ intStr 3 ++ " attempts: ") =
      "API call failed after 3 attempts: " := by decide
  dsimp only
  rw [hr]
  norm_num [analyzeLoop, hf]
  rw [← hstr]

/-- C9: with `max_retries ≤ 0` the loop over `range(max_retries)` is never
entered, so `analyze` invokes the transport zero times, performs no sleep,
raises nothing, and falls through to `return ""`. -/
theorem retry_nonpositive (transport : Transport) (query : String)
    (ctx : DataContext ⊕ List (String × MetricGroup)) (maxRetries : ℤ)
    (h : maxRetries ≤ 0) (retryDelay : ℚ) (t : DomainTemplate) :
    analyze transport query ctx maxRetries retryDelay t = ⟨0, [], .ok ""⟩ := by
  unfold analyze
  dsimp only
  have hr : pyRange maxRetries = [] := by
    unfold pyRange
    rw [Int.toNat_of_nonpos h]
    rfl
  rw [hr]
  rfl

/-- C8 as frozen is false at one concrete input: a judge response whose
text is the empty string fails JSON parsing, yet `evaluate_response`
replaces falsy content with `"\x7b\x7d"` before parsing and so returns the
empty object rather than the zeroed default. -/
theorem evaluate_response_empty_counterexample :
    jsonLoads "" = none ∧
    evaluate_response (some "") = JsonVal.obj [] ∧
    evaluate_response (some "") ≠ defaultEvalResult := by
  refine ⟨rfl, rfl, ?_⟩
  intro h
  have h2 : JsonVal.obj [] = defaultEvalResult := h
  unfold defaultEvalResult at h2
  injection h2 with hl
  exact absurd hl (by simp)

/-- C8 amended: for every evaluation whose judge text is non-empty and
fails to parse as JSON, `evaluate_response` swallows the parse failure and
returns the default result with all four scores zero and the fixed
reasoning string (empty or missing judge text is instead replaced by
`"\x7b\x7d"` and yields the empty object). -/
theorem evaluate_response_parse_failure (content : Option String) (s : String)
    (hc : content = some s) (hne : s ≠ "") (hp : jsonLoads s = none) :
    evaluate_response content = defaultEvalResult := by
  subst hc
  unfold evaluate_response pyOr
  dsimp only
  rw [if_neg hne, hp]

/-- Witness for C1 at a concrete transport failing twice then returning
`"done"`, with `retry_delay = 2`. -/
theorem retry_succeeds_third_witness :
    analyze
      (fun n _ => if n < 2 then Except.error (if n = 0 then "e0" else "e1")
        else Except.ok (some "done"))
      "why" (Sum.inl {}) 3 2 BANKING_TEMPLATE =
      ⟨3, [2 * 1, 2 * 2], .ok (pyOrEmpty (some "done"))⟩ :=
  retry_succeeds_third "why" (Sum.inl {}) 2 (by decide) BANKING_TEMPLATE _
    "e0" "e1" (some "done") (fun _ => rfl) (fun _ => rfl) (fun _ => rfl)

/-- Witness for C2 at a transport failing on every attempt with `"boom"`. -/
theorem retry_exhaustion_witness :
    analyze (fun _ _ => Except.error "boom") "why" (Sum.inl {}) 3 2
        BANKING_TEMPLATE =
      ⟨3, [2 * 1, 2 * 2], .fatal ("API call failed after 3 attempts: " ++ "boom")⟩ :=
  retry_exhaustion "why" (Sum.inl {}) 2 (by decide) BANKING_TEMPLATE _
    (fun _ => "boom") (fun _ _ => rfl)

/-- Witness for C9 at `max_retries = 0`. -/
theorem retry_nonpositive_witness :
    analyze (fun _ _ => Except.error "boom") "why" (Sum.inl {}) 0 2
        BANKING_TEMPLATE = ⟨0, [], .ok ""⟩ :=
  retry_nonpositive _ "why" _ 0 (by decide) 2 BANKING_TEMPLATE

/-- Witness for C3 at the scenario context's `retention_rate` entry. -/
theorem float_formatting_witness :
    ("  - " ++ "retention_rate" ++ ": " ++ formatPercent 1 (mkRat 56 100)) ∈
        scenarioContext.contextLines ∧
      OneDecPct (formatPercent 1 (mkRat 56 100)) :=
  (float_formatting scenarioContext "retention_rate" (mkRat 56 100)).1 (by decide)

/-- Witness for C5 at the banking template (three boundary rules). -/
theorem render_boundary_lines_witness :
    strLines BANKING_TEMPLATE.render =
      BANKING_TEMPLATE.headLines ++
        (if BANKING_TEMPLATE.boundaries = [] then [""]
          else BANKING_TEMPLATE.boundaries.map (fun b => "- " ++ b)) ++
        (renderTailLines ++ [""]) :=
  render_boundary_lines BANKING_TEMPLATE (by decide) (by decide) (by decide)
    (by decide) (by decide) (by decide)

/-- Witness for the amended C8 at the unparsable judge text `"not json"`. -/
theorem evaluate_response_parse_failure_witness :
    evaluate_response (some "not json") = defaultEvalResult :=
  evaluate_response_parse_failure (some "not json") "not json" rfl
    (by decide) rfl

end FourDARE
